import Mathlib

/-!
Shallow embedding of `resources/js/React/Components/ProductImageUploader/ProductImageUploader.tsx`.

The component keeps five pieces of React state (`isDisabled`, `loading`,
`success`, `error`, `previewUrl`), two event handlers (`handleFileChange`,
`handleUpload`) and an imperative handle exposing `enabled()` / `disabled()`.
`handleUpload` is asynchronous and interleaves state setters with one network
call, so it is embedded as a function producing the ordered list of effects
(`Action`s) it performs; applying that list to a state yields the observable
final state.  The browser environment (the file list of the input element, the
csrf meta tag, the fetch outcome, `URL.createObjectURL`) is passed in as
explicit data.
-/

namespace ProductImageUploader

/-- A selected file; only its identity matters to the component. -/
abbrev File := String

/-- `ProductModel.id` in the source has type `number | string`. -/
inductive ProductId where
  | num (n : Int)
  | str (s : String)
deriving DecidableEq, Repr

/-- JS template-literal interpolation of the id into the URL path. -/
def idInterp : ProductId → String
  | .num n => toString n
  | .str s => s

/-- The `productModel` prop: an object carrying at least an `id` field. -/
structure ProductModel where
  id : ProductId
deriving DecidableEq, Repr

/-- The five `useState` hooks of the component. -/
structure WidgetState where
  isDisabled : Bool
  loading : Bool
  success : Option String
  error : Option String
  previewUrl : Option String
deriving DecidableEq, Repr

/-- Initial hook values: `useState(false)`, `useState(false)`,
`useState(null)`, `useState(null)`, `useState(null)`. -/
def initialState : WidgetState :=
  { isDisabled := false, loading := false, success := none, error := none,
    previewUrl := none }

/-- JS `a || b` on strings: the empty string is falsy. -/
def jsOr (a b : String) : String := if a = "" then b else a

/-- `getCsrfToken`: reads `meta[name="csrf-token"]` and returns
`el?.content || ""`.  The argument is the `content` attribute of that element
when the element is present in the document. -/
def getCsrfToken (metaContent : Option String) : String :=
  match metaContent with
  | some c => jsOr c ""
  | none => ""

/-- Model of the browser API `URL.createObjectURL`: each call returns a fresh,
non-empty, opaque object URL.  Freshness is modelled by a counter threaded
through the widget; the URL is opaque, i.e. not derived from the file's
content. -/
def createObjectURL (_file : File) (counter : Nat) : String :=
  "blob:" ++ String.mk (List.replicate counter 'a')

/-- `handleFileChange`: clears `success` and `error`; then, from
`e.target.files?.[0]`, either stores a fresh object URL as the preview or
clears the preview.  Returns the new state together with the advanced
object-URL counter. -/
def handleFileChange (files : List File) (counter : Nat) (s : WidgetState) :
    WidgetState × Nat :=
  let s1 : WidgetState := { s with success := none, error := none }
  match files.head? with
  | some file =>
      ({ s1 with previewUrl := some (createObjectURL file counter) }, counter + 1)
  | none => ({ s1 with previewUrl := none }, counter)

/-- The single outbound HTTP request built by `handleUpload`. -/
structure Request where
  method : String
  path : String
  headers : List (String × String)
  body : List (String × File)
deriving DecidableEq, Repr

/-- The `fetch` call of `handleUpload`: POST to
`/api/products/${productModel.id}/image` with the `X-CSRF-TOKEN` header and a
`FormData` body holding the file under the field name `"image"`. -/
def mkRequest (pm : ProductModel) (metaContent : Option String) (file : File) :
    Request :=
  { method := "POST"
  , path := "/api/products/" ++ idInterp pm.id ++ "/image"
  , headers := [("X-CSRF-TOKEN", getCsrfToken metaContent)]
  , body := [("image", file)] }

/-- One observable effect of `handleUpload`: a state-setter call or the
network request. -/
inductive Action where
  | setSuccess (v : Option String)
  | setError (v : Option String)
  | setLoading (b : Bool)
  | netRequest (r : Request)
deriving DecidableEq, Repr

/-- How the awaited `fetch` ends: either a response (with `res.ok`,
`res.statusText`, and the body text — `none` when `res.text()` rejects, which
the source maps to `null` via `.catch(() => null)`), or the call throws (with
`err?.message`, `none` when absent). -/
inductive FetchOutcome where
  | response (ok : Bool) (statusText : String) (bodyText : Option String)
  | thrown (message : Option String)
deriving DecidableEq, Repr

/-- The fixed local validation message `"Selecione um arquivo para envio."`. -/
def validationMessage : String := "Selecione um arquivo para envio."

/-- The fixed success message `"Upload realizado com sucesso."`. -/
def successMessage : String := "Upload realizado com sucesso."

/-- The generic server-error fallback `"Erro no servidor"`. -/
def serverErrorFallback : String := "Erro no servidor"

/-- The generic catch fallback `"Erro ao enviar imagem."`. -/
def sendErrorFallback : String := "Erro ao enviar imagem."

/-- The `catch` handler: `setError(err?.message || "Erro ao enviar imagem.")`. -/
def catchHandler (message : Option String) : List Action :=
  [.setError (some (jsOr (message.getD "") sendErrorFallback))]

/-- The `try` block of `handleUpload` after `setLoading(true)`: issue the
request; on `!res.ok` read the body text and throw
`new Error(text || res.statusText || "Erro no servidor")`, which the `catch`
handler turns into the error state; on `res.ok` set the success message and
clear the error. -/
def tryBlock (pm : ProductModel) (metaContent : Option String) (file : File)
    (outcome : FetchOutcome) : List Action :=
  .netRequest (mkRequest pm metaContent file) ::
  match outcome with
  | .response ok statusText bodyText =>
      if ok then
        [.setSuccess (some successMessage), .setError none]
      else
        catchHandler
          (some (jsOr (bodyText.getD "") (jsOr statusText serverErrorFallback)))
  | .thrown message => catchHandler message

/-- `handleUpload`: clear both messages; read `inputRef.current?.files?.[0]`;
with no file set the validation error and return; otherwise set loading, run
the `try`/`catch`, and in the `finally` clear loading. -/
def handleUpload (pm : ProductModel) (metaContent : Option String)
    (files : List File) (outcome : FetchOutcome) : List Action :=
  .setSuccess none :: .setError none ::
  match files.head? with
  | none => [.setError (some validationMessage)]
  | some file =>
      .setLoading true ::
        (tryBlock pm metaContent file outcome ++ [.setLoading false])

/-- Apply one effect to the widget state (a network request does not change
the state by itself). -/
def applyAction (s : WidgetState) : Action → WidgetState
  | .setSuccess v => { s with success := v }
  | .setError v => { s with error := v }
  | .setLoading b => { s with loading := b }
  | .netRequest _ => s

/-- Apply a list of effects in order. -/
def runActions (s : WidgetState) (as : List Action) : WidgetState :=
  as.foldl applyAction s

/-- The network requests an effect list issues, in order. -/
def requestsOf : List Action → List Request
  | [] => []
  | .netRequest r :: rest => r :: requestsOf rest
  | _ :: rest => requestsOf rest

/-- The values passed to `setLoading` by an effect list, in order. -/
def loadingSets : List Action → List Bool
  | [] => []
  | .setLoading b :: rest => b :: loadingSets rest
  | _ :: rest => loadingSets rest

/-- The whole widget: React state, the file list owned by the input element,
and the object-URL freshness counter. -/
structure Widget where
  st : WidgetState
  files : List File
  urlCounter : Nat
deriving DecidableEq, Repr

/-- Widget on mount: initial hook state, no file selected. -/
def initialWidget : Widget :=
  { st := initialState, files := [], urlCounter := 0 }

/-- External stimuli: a change of the input's file selection, a click of the
submit button (carrying how the fetch would end), and the two imperative
handle methods `enabled()` / `disabled()`. -/
inductive Event where
  | fileChange (files : List File)
  | submitClick (outcome : FetchOutcome)
  | enabledCall
  | disabledCall
deriving DecidableEq, Repr

/-- One widget transition.  Both the file input and the submit button are
rendered with `disabled={isDisabled || loading}`, so their events cannot fire
while that holds; the imperative handle methods are not gated. -/
def step (pm : ProductModel) (metaContent : Option String) (w : Widget) :
    Event → Widget
  | .fileChange files =>
      if w.st.isDisabled || w.st.loading then w
      else
        let r := handleFileChange files w.urlCounter w.st
        { st := r.1, files := files, urlCounter := r.2 }
  | .submitClick outcome =>
      if w.st.isDisabled || w.st.loading then w
      else
        { w with
          st := runActions w.st (handleUpload pm metaContent w.files outcome) }
  | .enabledCall => { w with st := { w.st with isDisabled := false } }
  | .disabledCall => { w with st := { w.st with isDisabled := true } }

/-- States the widget can reach from mount under any sequence of events. -/
inductive Reachable (pm : ProductModel) (metaContent : Option String) :
    Widget → Prop
  | init : Reachable pm metaContent initialWidget
  | next (w : Widget) (e : Event) :
      Reachable pm metaContent w → Reachable pm metaContent (step pm metaContent w e)

/-! Helper lemmas shared by several claims. -/

theorem handleUpload_noFile (pm : ProductModel) (metaContent : Option String)
    (files : List File) (outcome : FetchOutcome) (h : files.head? = none) :
    handleUpload pm metaContent files outcome
      = [.setSuccess none, .setError none, .setError (some validationMessage)] := by
  unfold handleUpload
  rw [h]

theorem handleUpload_file (pm : ProductModel) (metaContent : Option String)
    (files : List File) (outcome : FetchOutcome) (f : File)
    (h : files.head? = some f) :
    handleUpload pm metaContent files outcome
      = .setSuccess none :: .setError none :: .setLoading true ::
          (tryBlock pm metaContent f outcome ++ [.setLoading false]) := by
  unfold handleUpload
  rw [h]

theorem requestsOf_append (as bs : List Action) :
    requestsOf (as ++ bs) = requestsOf as ++ requestsOf bs := by
  induction as with
  | nil => rfl
  | cons a tl ih => cases a <;> simp [requestsOf, ih]

theorem loadingSets_append (as bs : List Action) :
    loadingSets (as ++ bs) = loadingSets as ++ loadingSets bs := by
  induction as with
  | nil => rfl
  | cons a tl ih => cases a <;> simp [loadingSets, ih]

theorem requestsOf_tryBlock (pm : ProductModel) (metaContent : Option String)
    (file : File) (outcome : FetchOutcome) :
    requestsOf (tryBlock pm metaContent file outcome)
      = [mkRequest pm metaContent file] := by
  cases outcome with
  | response ok statusText bodyText =>
      cases ok <;> simp [tryBlock, catchHandler, requestsOf]
  | thrown message => simp [tryBlock, catchHandler, requestsOf]

theorem loadingSets_tryBlock (pm : ProductModel) (metaContent : Option String)
    (file : File) (outcome : FetchOutcome) :
    loadingSets (tryBlock pm metaContent file outcome) = [] := by
  cases outcome with
  | response ok statusText bodyText =>
      cases ok <;> simp [tryBlock, catchHandler, loadingSets]
  | thrown message => simp [tryBlock, catchHandler, loadingSets]

theorem requestsOf_handleUpload_file (pm : ProductModel)
    (metaContent : Option String) (files : List File) (outcome : FetchOutcome)
    (f : File) (h : files.head? = some f) :
    requestsOf (handleUpload pm metaContent files outcome)
      = [mkRequest pm metaContent f] := by
  rw [handleUpload_file pm metaContent files outcome f h]
  cases outcome with
  | response ok statusText bodyText =>
      cases ok <;>
        simp [tryBlock, catchHandler, requestsOf, requestsOf_append]
  | thrown message =>
      simp [tryBlock, catchHandler, requestsOf, requestsOf_append]

theorem runActions_take_loading (as : List Action) (s : WidgetState)
    (h : loadingSets as = []) (k : Nat) :
    (runActions s (as.take k)).loading = s.loading := by
  induction as generalizing s k with
  | nil => cases k <;> rfl
  | cons a tl ih =>
      cases k with
      | zero => rfl
      | succ k =>
          cases a with
          | setLoading b => simp [loadingSets] at h
          | setSuccess v =>
              simpa [runActions, applyAction] using
                ih { s with success := v } (by simpa [loadingSets] using h) k
          | setError v =>
              simpa [runActions, applyAction] using
                ih { s with error := v } (by simpa [loadingSets] using h) k
          | netRequest r =>
              simpa [runActions, applyAction] using
                ih s (by simpa [loadingSets] using h) k

theorem createObjectURL_length (f : File) (n : Nat) :
    (createObjectURL f n).length = 5 + n := by
  have h5 : "blob:".length = 5 := rfl
  simp [createObjectURL, String.length_append, h5]

theorem createObjectURL_ne_empty (f : File) (n : Nat) :
    createObjectURL f n ≠ "" := by
  intro hEq
  have h0 : (createObjectURL f n).length = 0 := by rw [hEq]; rfl
  rw [createObjectURL_length] at h0
  omega

theorem createObjectURL_inj_counter (f g : File) (m n : Nat)
    (h : createObjectURL f m = createObjectURL g n) : m = n := by
  have hl := congrArg String.length h
  rw [createObjectURL_length, createObjectURL_length] at hl
  omega

theorem getCsrfToken_eq_getD (metaContent : Option String) :
    getCsrfToken metaContent = metaContent.getD "" := by
  cases metaContent with
  | none => rfl
  | some c =>
      by_cases hc : c = "" <;> simp [getCsrfToken, jsOr, hc]

theorem errorChain (statusText : String) (bodyText : Option String) :
    jsOr (jsOr (bodyText.getD "") (jsOr statusText serverErrorFallback))
        sendErrorFallback
      = if bodyText.getD "" ≠ "" then bodyText.getD ""
        else if statusText ≠ "" then statusText
        else serverErrorFallback := by
  by_cases hb : bodyText.getD "" = ""
  · by_cases hs : statusText = ""
    · simp [jsOr, hb, hs, serverErrorFallback, sendErrorFallback]
    · simp [jsOr, hb, hs]
  · simp [jsOr, hb]

theorem handleFileChange_messages (files : List File) (counter : Nat)
    (s : WidgetState) :
    (handleFileChange files counter s).1.success = none
    ∧ (handleFileChange files counter s).1.error = none := by
  cases h : files.head? <;> simp [handleFileChange, h]

theorem handleUpload_messages (pm : ProductModel) (metaContent : Option String)
    (files : List File) (outcome : FetchOutcome) (s : WidgetState) :
    (runActions s (handleUpload pm metaContent files outcome)).success = none
    ∨ (runActions s (handleUpload pm metaContent files outcome)).error = none := by
  cases h : files.head? with
  | none =>
      rw [handleUpload_noFile pm metaContent files outcome h]
      left; rfl
  | some f =>
      rw [handleUpload_file pm metaContent files outcome f h]
      cases outcome with
      | response ok statusText bodyText =>
          cases ok <;> simp [tryBlock, catchHandler, runActions, applyAction]
      | thrown message =>
          simp [tryBlock, catchHandler, runActions, applyAction]

/-- C1: submitting while no file is selected issues no network request, sets
the error to the fixed local validation message, and never sets the loading
flag (at every point of the handler's execution, loading is unchanged). -/
theorem submit_noFile_local_validation (pm : ProductModel)
    (metaContent : Option String) (files : List File) (outcome : FetchOutcome)
    (s : WidgetState) (h : files.head? = none) :
    requestsOf (handleUpload pm metaContent files outcome) = []
    ∧ (runActions s (handleUpload pm metaContent files outcome)).error
        = some validationMessage
    ∧ ∀ k,
        (runActions s ((handleUpload pm metaContent files outcome).take k)).loading
          = s.loading := by
  rw [handleUpload_noFile pm metaContent files outcome h]
  exact ⟨rfl, rfl, runActions_take_loading _ s rfl⟩

theorem submit_noFile_local_validation_witness :
    requestsOf (handleUpload ⟨.num 42⟩ none [] (.thrown none)) = []
    ∧ (runActions initialState (handleUpload ⟨.num 42⟩ none [] (.thrown none))).error
        = some validationMessage
    ∧ ∀ k,
        (runActions initialState
            ((handleUpload ⟨.num 42⟩ none [] (.thrown none)).take k)).loading
          = initialState.loading :=
  submit_noFile_local_validation ⟨.num 42⟩ none [] (.thrown none) initialState rfl

/-- C4: while the externally set disabled flag is true, a file-selection
change and a submit click leave the whole widget unchanged, whatever the
loading flag's value. -/
theorem disabled_flag_inert (pm : ProductModel) (metaContent : Option String)
    (w : Widget) (files : List File) (outcome : FetchOutcome)
    (h : w.st.isDisabled = true) :
    step pm metaContent w (.fileChange files) = w
    ∧ step pm metaContent w (.submitClick outcome) = w := by
  constructor <;> simp [step, h]

theorem disabled_flag_inert_witness :
    step ⟨.num 42⟩ none
        { st := { initialState with isDisabled := true }, files := [],
          urlCounter := 0 } (.fileChange ["photo.png"])
      = { st := { initialState with isDisabled := true }, files := [],
          urlCounter := 0 }
    ∧ step ⟨.num 42⟩ none
        { st := { initialState with isDisabled := true }, files := [],
          urlCounter := 0 } (.submitClick (.response true "OK" none))
      = { st := { initialState with isDisabled := true }, files := [],
          urlCounter := 0 } :=
  disabled_flag_inert ⟨.num 42⟩ none
    { st := { initialState with isDisabled := true }, files := [], urlCounter := 0 }
    ["photo.png"] (.response true "OK" none) rfl

/-- C6: every file-selection change clears both the success and the error
message, for every prior state and whether or not a file is present. -/
theorem fileChange_clears_messages (files : List File) (counter : Nat)
    (s : WidgetState) :
    (handleFileChange files counter s).1.success = none
    ∧ (handleFileChange files counter s).1.error = none := by
  cases h : files.head? <;> simp [handleFileChange, h]

/-- C9: the imperative handle's two operations (named `enabled()` /
`disabled()` in the source) are idempotent, and the sequence enable, disable,
enable leaves the widget enabled without touching loading, success, error,
preview, the selection or the URL counter. -/
theorem enable_disable_algebra (pm : ProductModel) (metaContent : Option String)
    (w : Widget) :
    step pm metaContent
        (step pm metaContent (step pm metaContent w .enabledCall) .disabledCall)
        .enabledCall
      = { w with st := { w.st with isDisabled := false } }
    ∧ step pm metaContent (step pm metaContent w .enabledCall) .enabledCall
        = step pm metaContent w .enabledCall
    ∧ step pm metaContent (step pm metaContent w .disabledCall) .disabledCall
        = step pm metaContent w .disabledCall := by
  exact ⟨rfl, rfl, rfl⟩

/-- C10: only the first file of the input's selection is used: both handlers
behave identically on `f :: rest` and on `[f]`, the preview comes from the
first file, and the upload payload is exactly the first file. -/
theorem first_file_only (pm : ProductModel) (metaContent : Option String)
    (f : File) (rest : List File) (counter : Nat) (s : WidgetState)
    (outcome : FetchOutcome) :
    handleFileChange (f :: rest) counter s = handleFileChange [f] counter s
    ∧ handleUpload pm metaContent (f :: rest) outcome
        = handleUpload pm metaContent [f] outcome
    ∧ (handleFileChange (f :: rest) counter s).1.previewUrl
        = some (createObjectURL f counter)
    ∧ requestsOf (handleUpload pm metaContent (f :: rest) outcome)
        = [mkRequest pm metaContent f]
    ∧ (mkRequest pm metaContent f).body = [("image", f)] := by
  exact ⟨rfl, rfl, rfl,
    requestsOf_handleUpload_file pm metaContent (f :: rest) outcome f rfl, rfl⟩

/-- C2: submitting with a file selected sets loading to true before the
network request and back to false exactly once afterwards, whatever the
outcome (success, non-2xx response, or thrown exception): the handler's
effect trace is clear-messages, loading:=true, the request, some
loading-free and request-free middle, loading:=false, and the full list of
`setLoading` calls is `[true, false]`. -/
theorem submit_loading_lifecycle (pm : ProductModel)
    (metaContent : Option String) (files : List File) (outcome : FetchOutcome)
    (f : File) (h : files.head? = some f) :
    ∃ r mid,
      handleUpload pm metaContent files outcome
        = [.setSuccess none, .setError none, .setLoading true, .netRequest r]
            ++ mid ++ [.setLoading false]
      ∧ loadingSets mid = []
      ∧ requestsOf mid = []
      ∧ loadingSets (handleUpload pm metaContent files outcome)
          = [true, false] := by
  rw [handleUpload_file pm metaContent files outcome f h]
  refine ⟨mkRequest pm metaContent f, ?_⟩
  cases outcome with
  | response ok statusText bodyText =>
      cases ok with
      | true =>
          exact ⟨[.setSuccess (some successMessage), .setError none],
            by simp [tryBlock],
            rfl, rfl,
            by simp [tryBlock, loadingSets, loadingSets_append]⟩
      | false =>
          exact ⟨catchHandler
              (some (jsOr (bodyText.getD "") (jsOr statusText serverErrorFallback))),
            by simp [tryBlock],
            rfl, rfl,
            by simp [tryBlock, catchHandler, loadingSets, loadingSets_append]⟩
  | thrown message =>
      exact ⟨catchHandler message,
        by simp [tryBlock],
        rfl, rfl,
        by simp [tryBlock, catchHandler, loadingSets, loadingSets_append]⟩

theorem submit_loading_lifecycle_witness :
    ∃ r mid,
      handleUpload ⟨.num 42⟩ none ["photo.png"] (.response true "OK" none)
        = [.setSuccess none, .setError none, .setLoading true, .netRequest r]
            ++ mid ++ [.setLoading false]
      ∧ loadingSets mid = []
      ∧ requestsOf mid = []
      ∧ loadingSets (handleUpload ⟨.num 42⟩ none ["photo.png"]
            (.response true "OK" none))
          = [true, false] :=
  submit_loading_lifecycle ⟨.num 42⟩ none ["photo.png"]
    (.response true "OK" none) "photo.png" rfl

/-- C3: for a completed request, a 2xx response yields exactly the fixed
success message with the error cleared and the response body ignored (the
handler's effects do not depend on the body), while a non-2xx response yields
no success message and an error equal to the body text when non-empty, else
the status text when non-empty, else the generic fallback. -/
theorem response_message_handling (pm : ProductModel)
    (metaContent : Option String) (files : List File) (f : File)
    (s : WidgetState) (h : files.head? = some f) :
    (∀ statusText bodyText,
        (runActions s (handleUpload pm metaContent files
            (.response true statusText bodyText))).success = some successMessage
        ∧ (runActions s (handleUpload pm metaContent files
            (.response true statusText bodyText))).error = none)
    ∧ (∀ statusText bodyText bodyText',
        handleUpload pm metaContent files (.response true statusText bodyText)
          = handleUpload pm metaContent files (.response true statusText bodyText'))
    ∧ (∀ statusText bodyText,
        (runActions s (handleUpload pm metaContent files
            (.response false statusText bodyText))).error
          = some (if bodyText.getD "" ≠ "" then bodyText.getD ""
                  else if statusText ≠ "" then statusText
                  else serverErrorFallback)
        ∧ (runActions s (handleUpload pm metaContent files
            (.response false statusText bodyText))).success = none) := by
  refine ⟨?_, ?_, ?_⟩
  · intro statusText bodyText
    rw [handleUpload_file pm metaContent files _ f h]
    simp [tryBlock, runActions, applyAction]
  · intro statusText bodyText bodyText'
    rw [handleUpload_file pm metaContent files _ f h,
        handleUpload_file pm metaContent files _ f h]
    simp [tryBlock]
  · intro statusText bodyText
    rw [handleUpload_file pm metaContent files _ f h]
    constructor
    · have hc := errorChain statusText bodyText
      simp [tryBlock, catchHandler, runActions, applyAction, hc]
    · simp [tryBlock, catchHandler, runActions, applyAction]

theorem response_message_handling_witness :
    (runActions initialState (handleUpload ⟨.num 42⟩ none ["photo.png"]
        (.response true "OK" (some "ignored body")))).success = some successMessage
    ∧ (runActions initialState (handleUpload ⟨.num 42⟩ none ["photo.png"]
        (.response false "Forbidden" (some "bad image")))).error
      = some "bad image" := by
  have hth := response_message_handling ⟨.num 42⟩ none ["photo.png"] "photo.png"
    initialState rfl
  refine ⟨(hth.1 "OK" (some "ignored body")).1, ?_⟩
  have he := (hth.2.2 "Forbidden" (some "bad image")).1
  simpa using he

/-- C5: after a file-selection change, a preview reference exists iff a file
is selected: with a file present the preview is the freshly generated,
non-empty object URL (distinct from every URL generated at an earlier
counter value) and the counter advances; with no file the preview is cleared
and the counter is unchanged. -/
theorem preview_iff_selected (files : List File) (counter : Nat)
    (s : WidgetState) :
    ((handleFileChange files counter s).1.previewUrl.isSome
        ↔ files.head?.isSome)
    ∧ (∀ f, files.head? = some f →
        (handleFileChange files counter s).1.previewUrl
            = some (createObjectURL f counter)
        ∧ createObjectURL f counter ≠ ""
        ∧ (handleFileChange files counter s).2 = counter + 1
        ∧ ∀ g m, m < counter → createObjectURL g m ≠ createObjectURL f counter)
    ∧ (files.head? = none →
        (handleFileChange files counter s).1.previewUrl = none
        ∧ (handleFileChange files counter s).2 = counter) := by
  refine ⟨?_, ?_, ?_⟩
  · cases h : files.head? <;> simp [handleFileChange, h]
  · intro f h
    refine ⟨by simp [handleFileChange, h],
      createObjectURL_ne_empty f counter,
      by simp [handleFileChange, h], ?_⟩
    intro g m hm hEq
    exact absurd (createObjectURL_inj_counter g f m counter hEq)
      (Nat.ne_of_lt hm)
  · intro h
    exact ⟨by simp [handleFileChange, h], by simp [handleFileChange, h]⟩

theorem preview_iff_selected_witness :
    (handleFileChange ["photo.png"] 0 initialState).1.previewUrl
        = some (createObjectURL "photo.png" 0)
    ∧ createObjectURL "photo.png" 0 ≠ "" := by
  have hth := (preview_iff_selected ["photo.png"] 0 initialState).2.1
    "photo.png" rfl
  exact ⟨hth.1, hth.2.1⟩

/-- C7: in every reachable widget state at most one of the success and error
messages is non-null, and every submit invocation starts by clearing both
messages, before any other effect (in particular before loading is set). -/
theorem message_exclusion (pm : ProductModel) (metaContent : Option String) :
    (∀ w, Reachable pm metaContent w →
        w.st.success = none ∨ w.st.error = none)
    ∧ (∀ files outcome, ∃ rest,
        handleUpload pm metaContent files outcome
          = .setSuccess none :: .setError none :: rest) := by
  constructor
  · intro w hw
    induction hw with
    | init => left; rfl
    | next w e hr ih =>
        cases e with
        | fileChange files =>
            simp only [step]
            split
            · exact ih
            · exact Or.inl (handleFileChange_messages files w.urlCounter w.st).1
        | submitClick outcome =>
            simp only [step]
            split
            · exact ih
            · exact handleUpload_messages pm metaContent w.files outcome w.st
        | enabledCall =>
            rcases ih with hs | he
            · exact Or.inl hs
            · exact Or.inr he
        | disabledCall =>
            rcases ih with hs | he
            · exact Or.inl hs
            · exact Or.inr he
  · intro files outcome
    exact ⟨_, rfl⟩

theorem message_exclusion_witness :
    initialWidget.st.success = none ∨ initialWidget.st.error = none :=
  (message_exclusion ⟨.num 42⟩ none).1 initialWidget Reachable.init

/-- C8: with a file selected, the submit handler issues exactly one request:
a POST to `/api/products/{id}/image` with the id string-interpolated, a
multipart body with the single field `image` holding the selected file, and
the `X-CSRF-TOKEN` header equal to the csrf meta tag's content when present,
else the empty string. -/
theorem upload_request_shape (pm : ProductModel) (metaContent : Option String)
    (files : List File) (outcome : FetchOutcome) (f : File)
    (h : files.head? = some f) :
    requestsOf (handleUpload pm metaContent files outcome)
      = [{ method := "POST"
         , path := "/api/products/" ++ idInterp pm.id ++ "/image"
         , headers := [("X-CSRF-TOKEN", metaContent.getD "")]
         , body := [("image", f)] }] := by
  rw [requestsOf_handleUpload_file pm metaContent files outcome f h]
  simp [mkRequest, getCsrfToken_eq_getD]

theorem upload_request_shape_witness :
    requestsOf (handleUpload ⟨.num 42⟩ (some "tok") ["photo.png"]
        (.response true "OK" none))
      = [{ method := "POST"
         , path := "/api/products/" ++ idInterp (.num 42) ++ "/image"
         , headers := [("X-CSRF-TOKEN", (some "tok").getD "")]
         , body := [("image", "photo.png")] }] :=
  upload_request_shape ⟨.num 42⟩ (some "tok") ["photo.png"]
    (.response true "OK" none) "photo.png" rfl

end ProductImageUploader
